import Mathlib

set_option maxHeartbeats 1000000

/-!
Verification development for the conversation-context manager of the
Telegram_AI_Chatbot repository. The repository holds four near-duplicate
variants of the same glue logic:

- src/app.js lines 27-63: generateAIResponse of the WhatsApp variant;
- src/app.js lines 454-495: generateAIResponse of the Telegram variant,
  with the friendlyPrompt composition and the command handlers of
  lines 502-553;
- src/unnamed/part_000: a Telegram variant without prompt composition,
  history bound 20;
- src/unnamed/part_001: a Telegram variant without prompt composition,
  history bound 10.

Each variant is embedded as a pure function of the history stored for the
user and of the outcome of the single awaited upstream call.
-/

/-- Role of a stored conversational turn: every variant pushes objects
carrying role user or role model. -/
inductive Role where
  | user
  | model
deriving DecidableEq, Repr

/-- One stored history entry: a role together with the message text (held
as parts or content in the JS objects). -/
structure Turn where
  role : Role
  text : String
deriving DecidableEq, Repr

/-- Mode of an upstream Gemini call: model.generateContent is the
single-shot mode, model.startChat followed by chat.sendMessage is the
continuation mode. -/
inductive GenMode where
  | singleShot
  | continuation
deriving DecidableEq, Repr

/-- The upstream request actually issued: the mode, the history supplied to
startChat (empty for single-shot calls), and the newest prompt text sent. -/
structure GenRequest where
  mode : GenMode
  history : List Turn
  prompt : String
deriving DecidableEq, Repr

/-- Outcome of the awaited upstream call: either a reply text is produced,
or the call rejects or yields a malformed response (anything that lands in
the catch block of the source). -/
inductive GenOutcome where
  | success (reply : String)
  | failure
deriving DecidableEq, Repr

/-- Result of one generateAIResponse call: the request that was issued, the
history stored for the user afterwards, and the returned text. -/
structure GenResult where
  request : GenRequest
  turns : List Turn
  reply : String
deriving DecidableEq, Repr

/-- The inline trim used by every variant, and named applyBound by the
spec: if (h.length > maxLen) h = h.slice(-maxLen). A JS slice(-n) on an
array longer than n keeps the last n entries, which is List.drop of the
surplus. -/
def applyBound (turns : List Turn) (maxLen : Nat) : List Turn :=
  if turns.length > maxLen then turns.drop (turns.length - maxLen) else turns

namespace Telegram

/-- Fixed fallback string returned from the catch block of the Telegram
variant, src/app.js line 493. -/
def fallback : String := "Sorry, I couldn\x27t process that. Can you try asking again?"

/-- The fixed style instruction of src/app.js lines 463-466: the two
concatenated string literals that friendlyPrompt places before the raw
user message. -/
def styleInstruction : String :=
  "Please reply in a casual, friendly, and conversational style without using markdown, bold formatting, or bullet points. Make your reply sound natural and human-like.\n\n"

/-- friendlyPrompt of src/app.js lines 463-466: the fixed instruction
directly followed by the raw user message. -/
def friendlyPrompt (userMessage : String) : String :=
  styleInstruction ++ userMessage

/-- The upstream call issued by the Telegram generateAIResponse,
src/app.js lines 468-479: when the stored history is non-empty the call is
startChat with that history followed by sendMessage of friendlyPrompt;
otherwise it is a single generateContent of friendlyPrompt. -/
def request (history : List Turn) (userMessage : String) : GenRequest :=
  if history.length > 0 then
    { mode := GenMode.continuation, history := history,
      prompt := friendlyPrompt userMessage }
  else
    { mode := GenMode.singleShot, history := [],
      prompt := friendlyPrompt userMessage }

/-- generateAIResponse of the Telegram variant, src/app.js lines 454-495.
On success the original userMessage and the reply text are pushed, then the
history is trimmed to the last 20 entries, and the reply text is returned.
On failure no push is reached (both pushes come after the awaited calls)
and the catch block returns the fixed fallback, leaving the history as it
was. -/
def generateAIResponse (history : List Turn) (userMessage : String)
    (outcome : GenOutcome) : GenResult :=
  let req := request history userMessage
  match outcome with
  | GenOutcome.success reply =>
      { request := req,
        turns := applyBound
          (history ++ [⟨Role.user, userMessage⟩, ⟨Role.model, reply⟩]) 20,
        reply := reply }
  | GenOutcome.failure =>
      { request := req, turns := history, reply := fallback }

end Telegram

namespace WhatsApp

/-- Fixed fallback string returned from the catch block of the WhatsApp
variant, src/app.js line 61. -/
def fallback : String := "Sorry, I couldn\x27t process your request. Please try again later."

/-- generateAIResponse of the WhatsApp variant, src/app.js lines 27-63.
The user message is pushed into the stored history and the history trimmed
to the last 10 entries before the upstream call; the call always uses
startChat with that history and sends the raw userMessage (so the current
message sits in the supplied history as well). On success the reply is
pushed with no further trim; on failure the catch block returns the fixed
fallback and the already-pushed user turn stays in the history. -/
def generateAIResponse (history : List Turn) (userMessage : String)
    (outcome : GenOutcome) : GenResult :=
  let h1 := applyBound (history ++ [⟨Role.user, userMessage⟩]) 10
  let req : GenRequest :=
    { mode := GenMode.continuation, history := h1, prompt := userMessage }
  match outcome with
  | GenOutcome.success reply =>
      { request := req, turns := h1 ++ [⟨Role.model, reply⟩], reply := reply }
  | GenOutcome.failure =>
      { request := req, turns := h1, reply := fallback }

end WhatsApp

namespace Part000

/-- Fixed fallback string returned from the catch block of
src/unnamed/part_000 line 51. -/
def fallback : String := "Sorry, I couldn\x27t process your request. Please try again later."

/-- The upstream call issued by generateAIResponse of src/unnamed/part_000
lines 26-37: startChat with the stored history and sendMessage of the raw
userMessage when the history is non-empty, otherwise a single
generateContent of the raw userMessage. -/
def request (history : List Turn) (userMessage : String) : GenRequest :=
  if history.length > 0 then
    { mode := GenMode.continuation, history := history, prompt := userMessage }
  else
    { mode := GenMode.singleShot, history := [], prompt := userMessage }

/-- generateAIResponse of src/unnamed/part_000 lines 15-53. Identical in
shape to the Telegram variant of src/app.js but without prompt
composition: the raw userMessage is what goes upstream in both modes. On
success the pair is pushed and the history trimmed to the last 20 entries;
on failure nothing is pushed. -/
def generateAIResponse (history : List Turn) (userMessage : String)
    (outcome : GenOutcome) : GenResult :=
  let req := request history userMessage
  match outcome with
  | GenOutcome.success reply =>
      { request := req,
        turns := applyBound
          (history ++ [⟨Role.user, userMessage⟩, ⟨Role.model, reply⟩]) 20,
        reply := reply }
  | GenOutcome.failure =>
      { request := req, turns := history, reply := fallback }

end Part000

namespace Part001

/-- Fixed fallback string returned from the catch block of
src/unnamed/part_001 line 55. -/
def fallback : String := "Sorry, I couldn\x27t process your request. Please try again later."

/-- The upstream call issued by generateAIResponse of src/unnamed/part_001
lines 26-41: startChat with the stored history and sendMessage of the raw
userMessage when the history is non-empty, otherwise a single
generateContent of the raw userMessage. -/
def request (history : List Turn) (userMessage : String) : GenRequest :=
  if history.length > 0 then
    { mode := GenMode.continuation, history := history, prompt := userMessage }
  else
    { mode := GenMode.singleShot, history := [], prompt := userMessage }

/-- generateAIResponse of src/unnamed/part_001 lines 15-57. Same shape as
part_000 but the trim bound is 10, not 20 (lines 48-50), and the model
entry pushed at line 45 holds the raw response object rather than extracted
text; the reply field below abstracts that object by its text. On failure
nothing is pushed. -/
def generateAIResponse (history : List Turn) (userMessage : String)
    (outcome : GenOutcome) : GenResult :=
  let req := request history userMessage
  match outcome with
  | GenOutcome.success reply =>
      { request := req,
        turns := applyBound
          (history ++ [⟨Role.user, userMessage⟩, ⟨Role.model, reply⟩]) 10,
        reply := reply }
  | GenOutcome.failure =>
      { request := req, turns := history, reply := fallback }

end Part001

/-- The module-level conversations object of each variant: a mapping from
userId to an optionally present stored history. A missing key is distinct
from a key holding an empty array, as for a JS object. -/
def AppState : Type := String → Option (List Turn)

/-- Reading the history used for a user: a missing entry behaves as the
empty history (the variants initialize it to an empty array on first
access). -/
def AppState.get (st : AppState) (u : String) : List Turn := (st u).getD []

/-- Storing a history for a user. -/
def AppState.set (st : AppState) (u : String) (t : List Turn) : AppState :=
  fun v => if v = u then some t else st v

/-- delete conversations[userId], as in the reset handlers. -/
def AppState.clear (st : AppState) (u : String) : AppState :=
  fun v => if v = u then none else st v

/-- The conversations object at process start: no user has an entry. -/
def emptyState : AppState := fun _ => none

/-- The reset handler of src/unnamed/part_001 lines 85-95: the conversation
is deleted only when one is present; the other branch only changes the chat
reply sent back. -/
def Part001.resetCmd (st : AppState) (u : String) : AppState :=
  match st u with
  | some _ => st.clear u
  | none => st

/-- Character-list test that the first list opens the second, used to model
the JS string method startsWith and regex matching at one position. -/
def leadsChars : List Char → List Char → Bool
  | [], _ => true
  | _ :: _, [] => false
  | p :: ps, c :: cs => p == c && leadsChars ps cs

/-- Test that pat occurs somewhere inside the text: the unanchored regexes
handed to bot.onText match by substring search, so a pattern fires exactly
when it occurs anywhere in the message text. -/
def occursIn (pat : List Char) : List Char → Bool
  | [] => leadsChars pat []
  | c :: cs => leadsChars pat (c :: cs) || occursIn pat cs

/-- msg.text.startsWith(pre) of the JS source. -/
def textStarts (pre s : String) : Bool := leadsChars pre.data s.data

/-- Observable effect of handling one inbound Telegram message: the
conversations object afterwards, and whether generateAIResponse ran. -/
structure HandleResult where
  state : AppState
  genCalled : Bool
  reply : Option String

/-- One inbound text message processed by the handlers registered in
src/app.js lines 502-553. Each bot.onText handler fires when its unanchored
pattern occurs in the text: the start and help handlers only send canned
messages, the reset handler deletes the user entry. The generic message
handler returns early when the text starts with a slash and otherwise calls
generateAIResponse and stores its resulting history. -/
def handleUpdate (st : AppState) (u : String) (text : String)
    (o : GenOutcome) : HandleResult :=
  let st1 := if occursIn "/reset".data text.data then st.clear u else st
  if textStarts "/" text then
    { state := st1, genCalled := false, reply := none }
  else
    let r := Telegram.generateAIResponse (st1.get u) text o
    { state := st1.set u r.turns, genCalled := true, reply := some r.reply }

/-- One event in the life of a single user's history: a non-command message
together with the outcome of its upstream call, or a reset command. -/
inductive Event where
  | message (text : String) (outcome : GenOutcome)
  | reset
deriving Repr

/-- One step of the per-user history under a given generateAIResponse
variant: a message stores the turns that call leaves behind, a reset
deletes the entry, after which the history reads as empty. -/
def stepWith (g : List Turn → String → GenOutcome → GenResult)
    (s : List Turn) : Event → List Turn
  | Event.message m o => (g s m o).turns
  | Event.reset => []

/-- The per-user history after a sequence of events, starting from the
empty history a fresh user has. -/
def runWith (g : List Turn → String → GenOutcome → GenResult)
    (evs : List Event) : List Turn :=
  List.foldl (stepWith g) [] evs

/-- The event sequence of a run of successful exchanges: each pair gives
the message text and the reply text of one exchange. -/
def successEvents (xs : List (String × String)) : List Event :=
  xs.map fun p => Event.message p.1 (GenOutcome.success p.2)

/-- Bool test that a history consists of adjacent user and model pairs:
even length and strict role alternation starting from a user turn. -/
def wellPaired : List Turn → Bool
  | [] => true
  | [_] => false
  | u :: m :: rest =>
      decide (u.role = Role.user) && decide (m.role = Role.model) && wellPaired rest

/-- Invariant preservation along a left fold. -/
theorem foldl_inv {α β : Type} (f : α → β → α) (P : α → Prop) :
    ∀ (l : List β) (a : α), P a → (∀ x b, P x → P (f x b)) → P (List.foldl f a l)
  | [], _, ha, _ => ha
  | b :: l, a, ha, hf => foldl_inv f P l (f a b) (hf a b ha) hf

/-- The trim keeps exactly the most recent min of length and bound entries. -/
theorem applyBound_length (t : List Turn) (m : Nat) :
    (applyBound t m).length = min t.length m := by
  unfold applyBound
  split
  · rw [List.length_drop]; omega
  · omega

/-- The trim returns a suffix of its input: the most recent entries in
their original order. -/
theorem applyBound_suffix (t : List Turn) (m : Nat) : applyBound t m <:+ t := by
  unfold applyBound
  split
  · exact List.drop_suffix _ _
  · exact List.suffix_refl _

/-- The trim is the identity on a history already within the bound. -/
theorem applyBound_of_le (t : List Turn) (m : Nat) (h : t.length ≤ m) :
    applyBound t m = t := by
  unfold applyBound
  rw [if_neg (by omega)]

/-- A history of adjacent user and model pairs stays one under appending
another such history. -/
theorem wellPaired_append : ∀ (a b : List Turn), wellPaired a = true →
    wellPaired b = true → wellPaired (a ++ b) = true
  | [], _, _, hb => hb
  | [_], _, ha, _ => by simp [wellPaired] at ha
  | u :: m :: rest, b, ha, hb => by
      simp only [wellPaired, Bool.and_eq_true, decide_eq_true_eq] at ha
      simp only [List.cons_append, wellPaired, Bool.and_eq_true, decide_eq_true_eq]
      exact ⟨⟨ha.1.1, ha.1.2⟩, wellPaired_append rest b ha.2 hb⟩

/-- A history of adjacent user and model pairs has even length. -/
theorem wellPaired_even : ∀ (l : List Turn), wellPaired l = true → l.length % 2 = 0
  | [], _ => rfl
  | [_], h => by simp [wellPaired] at h
  | _ :: _ :: rest, h => by
      simp only [wellPaired, Bool.and_eq_true] at h
      have := wellPaired_even rest h.2
      simp only [List.length_cons]
      omega

/-- In a history of adjacent user and model pairs, even positions hold user
turns and odd positions hold model turns. -/
theorem wellPaired_idx : ∀ (l : List Turn), wellPaired l = true → ∀ (i : Nat),
    (l[i]?.all fun t =>
      decide (t.role = if i % 2 = 0 then Role.user else Role.model)) = true
  | [], _, _ => by simp
  | [_], h, _ => by simp [wellPaired] at h
  | u :: m :: rest, h, 0 => by
      simp only [wellPaired, Bool.and_eq_true, decide_eq_true_eq] at h
      simp [h.1.1]
  | u :: m :: rest, h, 1 => by
      simp only [wellPaired, Bool.and_eq_true, decide_eq_true_eq] at h
      simp [h.1.2]
  | u :: m :: rest, h, (i + 2) => by
      simp only [wellPaired, Bool.and_eq_true, decide_eq_true_eq] at h
      have hr := wellPaired_idx rest h.2 i
      have hmod : (i + 2) % 2 = i % 2 := Nat.add_mod_right i 2
      simpa [List.getElem?_cons_succ, hmod] using hr

/-- Appending one user and model pair to a paired history within an even
bound and trimming keeps the history paired: when the bound overflows the
trim drops exactly the oldest pair. -/
theorem wellPaired_applyBound (B : Nat) (hB : B % 2 = 0) (s : List Turn)
    (m r : String) (hwp : wellPaired s = true) (hlen : s.length ≤ B) :
    wellPaired (applyBound (s ++ [⟨Role.user, m⟩, ⟨Role.model, r⟩]) B) = true := by
  have hpair : wellPaired [⟨Role.user, m⟩, ⟨Role.model, r⟩] = true := by
    simp [wellPaired]
  have hslen : s.length % 2 = 0 := wellPaired_even s hwp
  have hlen2 : (s ++ [(⟨Role.user, m⟩ : Turn), ⟨Role.model, r⟩]).length
      = s.length + 2 := by simp
  unfold applyBound
  split
  · rename_i hgt
    have hdrop : (s ++ [(⟨Role.user, m⟩ : Turn), ⟨Role.model, r⟩]).length - B = 2 := by
      omega
    rw [hdrop]
    cases s with
    | nil => simp [wellPaired]
    | cons a t =>
      cases t with
      | nil => simp [wellPaired] at hwp
      | cons b rest =>
        simp only [wellPaired, Bool.and_eq_true, decide_eq_true_eq] at hwp
        have hd : ((a :: b :: rest) ++ [(⟨Role.user, m⟩ : Turn), ⟨Role.model, r⟩]).drop 2
            = rest ++ [(⟨Role.user, m⟩ : Turn), ⟨Role.model, r⟩] := rfl
        rw [hd]
        exact wellPaired_append rest _ hwp.2 hpair
  · exact wellPaired_append s _ hwp hpair

/-- Length of the stored history after a successful exchange under a trim
bound B: the two pushed turns, capped at B. -/
theorem pair_turns_len (B : Nat) (s : List Turn) (m r : String) :
    (applyBound (s ++ [⟨Role.user, m⟩, ⟨Role.model, r⟩]) B).length
      = min (s.length + 2) B := by
  rw [applyBound_length]
  simp

/-- One step of any Telegram-shaped variant (pair pushed on success, trim
to an even bound B, no mutation on failure, empty after reset) preserves
pairing and the bound B. -/
theorem pairs_step (B : Nat) (hB : B % 2 = 0)
    (g : List Turn → String → GenOutcome → GenResult)
    (hg : ∀ s m r, (g s m (GenOutcome.success r)).turns
        = applyBound (s ++ [⟨Role.user, m⟩, ⟨Role.model, r⟩]) B)
    (hgf : ∀ s m, (g s m GenOutcome.failure).turns = s)
    (s : List Turn) (e : Event)
    (h : wellPaired s = true ∧ s.length ≤ B) :
    wellPaired (stepWith g s e) = true ∧ (stepWith g s e).length ≤ B := by
  cases e with
  | reset => exact ⟨rfl, by simp [stepWith]⟩
  | message m o =>
    cases o with
    | success r =>
      simp only [stepWith, hg]
      refine ⟨wellPaired_applyBound B hB s m r h.1 h.2, ?_⟩
      have := pair_turns_len B s m r
      omega
    | failure =>
      simp only [stepWith, hgf]
      exact h

/-- Every reachable per-user history of a Telegram-shaped variant consists
of user and model pairs and stays within the trim bound B. -/
theorem pairs_invariant (B : Nat) (hB : B % 2 = 0)
    (g : List Turn → String → GenOutcome → GenResult)
    (hg : ∀ s m r, (g s m (GenOutcome.success r)).turns
        = applyBound (s ++ [⟨Role.user, m⟩, ⟨Role.model, r⟩]) B)
    (hgf : ∀ s m, (g s m GenOutcome.failure).turns = s)
    (evs : List Event) :
    wellPaired (runWith g evs) = true ∧ (runWith g evs).length ≤ B :=
  foldl_inv (stepWith g) (fun s => wellPaired s = true ∧ s.length ≤ B) evs []
    ⟨rfl, by simp⟩ (fun s e hs => pairs_step B hB g hg hgf s e hs)

/-- One step of the WhatsApp variant keeps the stored history within 11
entries: the pre-call push is trimmed to 10 and at most one reply entry is
added after it. -/
theorem whatsapp_len_step (s : List Turn) (e : Event) (_h : s.length ≤ 11) :
    (stepWith WhatsApp.generateAIResponse s e).length ≤ 11 := by
  cases e with
  | reset => simp [stepWith]
  | message m o =>
    have h1 := applyBound_length (s ++ [⟨Role.user, m⟩]) 10
    cases o with
    | success r =>
      simp only [stepWith, WhatsApp.generateAIResponse, List.length_append,
        List.length_cons, List.length_nil]
      omega
    | failure =>
      simp only [stepWith, WhatsApp.generateAIResponse]
      omega

/-- Length of a run of successful exchanges under a variant whose success
step stores the old history plus one pair, capped at B. -/
theorem success_run_len (B : Nat)
    (g : List Turn → String → GenOutcome → GenResult)
    (hg : ∀ s m r, ((g s m (GenOutcome.success r)).turns).length
        = min (s.length + 2) B) :
    ∀ (xs : List (String × String)) (s : List Turn), s.length ≤ B →
      (List.foldl (stepWith g) s (successEvents xs)).length
        = min (s.length + 2 * xs.length) B
  | [], s, _ => by simp [successEvents]; omega
  | (m, r) :: xs, s, hs => by
      have h1 := hg s m r
      have h2 := success_run_len B g hg xs ((g s m (GenOutcome.success r)).turns)
        (by omega)
      simp only [successEvents, List.map_cons, List.foldl_cons, stepWith] at h2 ⊢
      rw [h2, h1]
      simp only [List.length_cons]
      omega

/-- C1: the claim says a failed upstream call leaves the stored turns
unchanged and returns the fixed fallback. The Telegram variant behaves that
way, but the WhatsApp variant of src/app.js pushes the user turn before the
upstream call, so a failing first exchange leaves that turn stored: the
history goes from empty to one user turn while the fixed fallback is
returned. -/
theorem c1_failure_eval_whatsapp :
    (WhatsApp.generateAIResponse [] "Hello" GenOutcome.failure).reply = WhatsApp.fallback
    ∧ (WhatsApp.generateAIResponse [] "Hello" GenOutcome.failure).turns
        = [⟨Role.user, "Hello"⟩]
    ∧ (WhatsApp.generateAIResponse [] "Hello" GenOutcome.failure).turns ≠ []
    ∧ (Telegram.generateAIResponse [] "Hello" GenOutcome.failure).turns = []
    ∧ (Telegram.generateAIResponse [] "Hello" GenOutcome.failure).reply
        = Telegram.fallback :=
  ⟨rfl, rfl, by decide, rfl, rfl⟩

/-- C2: after any sequence of exchanges (successful or failed) and resets,
starting from the empty history of a fresh user, the stored history of
every variant holds at most 20 entries. -/
theorem c2_history_bounded (evs : List Event) :
    (runWith Telegram.generateAIResponse evs).length ≤ 20
    ∧ (runWith Part000.generateAIResponse evs).length ≤ 20
    ∧ (runWith WhatsApp.generateAIResponse evs).length ≤ 20
    ∧ (runWith Part001.generateAIResponse evs).length ≤ 20 := by
  have hT := pairs_invariant 20 rfl Telegram.generateAIResponse
    (fun _ _ _ => rfl) (fun _ _ => rfl) evs
  have h0 := pairs_invariant 20 rfl Part000.generateAIResponse
    (fun _ _ _ => rfl) (fun _ _ => rfl) evs
  have h1 := pairs_invariant 10 rfl Part001.generateAIResponse
    (fun _ _ _ => rfl) (fun _ _ => rfl) evs
  have hW : (runWith WhatsApp.generateAIResponse evs).length ≤ 11 :=
    foldl_inv (stepWith WhatsApp.generateAIResponse)
      (fun s => s.length ≤ 11) evs [] (by simp)
      (fun s e hs => whatsapp_len_step s e hs)
  exact ⟨hT.2, h0.2, by omega, by omega⟩

/-- C3 counterexample: the claim states that N successful exchanges from
an empty store leave min(2N, 20) stored turns, citing the part_001 variant
among its sources; part_001 trims to 10 entries, so after 6 successful
exchanges it stores 10 turns, not min(12, 20) = 12. -/
theorem c3_counterexample :
    ¬ ((runWith Part001.generateAIResponse
        (successEvents (List.replicate 6 ("hi", "yo")))).length = min (2 * 6) 20) := by
  decide

/-- C3 amended: after exactly N successful exchanges and no resets from an
empty store, the variants trimming to 20 (Telegram variant of src/app.js
and part_000) store exactly min(2N, 20) turns, while part_001 trims to 10
and stores exactly min(2N, 10) turns. -/
theorem c3_success_run_lengths (xs : List (String × String)) :
    (runWith Telegram.generateAIResponse (successEvents xs)).length
      = min (2 * xs.length) 20
    ∧ (runWith Part000.generateAIResponse (successEvents xs)).length
      = min (2 * xs.length) 20
    ∧ (runWith Part001.generateAIResponse (successEvents xs)).length
      = min (2 * xs.length) 10 := by
  have hT := success_run_len 20 Telegram.generateAIResponse
    (fun s m r => pair_turns_len 20 s m r) xs [] (by simp)
  have h0 := success_run_len 20 Part000.generateAIResponse
    (fun s m r => pair_turns_len 20 s m r) xs [] (by simp)
  have h1 := success_run_len 10 Part001.generateAIResponse
    (fun s m r => pair_turns_len 10 s m r) xs [] (by simp)
  simp only [List.length_nil, Nat.zero_add] at hT h0 h1
  refine ⟨?_, ?_, ?_⟩ <;> simp only [runWith] <;> omega

/-- C4 counterexample: the claim states that a successful exchange appends
the user and model pair and then applies the 20-entry bound, citing the
part_001 variant among its sources; part_001 applies a 10-entry bound, so
from a stored history of 10 turns a successful exchange leaves 10 turns
where the 20-entry bound would leave 12. -/
theorem c4_counterexample :
    ¬ (((Part001.generateAIResponse (List.replicate 10 ⟨Role.user, "x"⟩) "m"
        (GenOutcome.success "r")).turns).length
      = (applyBound (List.replicate 10 (⟨Role.user, "x"⟩ : Turn)
          ++ [⟨Role.user, "m"⟩, ⟨Role.model, "r"⟩]) 20).length) := by
  decide

/-- C4 amended: on a successful upstream response, the Telegram variant of
src/app.js and part_000 append exactly the user turn holding the original
raw message followed by the model turn holding the reply, apply the
20-entry bound, and return the reply text; the stored result is a suffix of
the appended history of length min(old + 2, 20). The part_001 variant does
the same with a 10-entry bound. -/
theorem c4_success_appends_pair (h : List Turn) (m r : String) :
    (Telegram.generateAIResponse h m (GenOutcome.success r)).reply = r
    ∧ (Telegram.generateAIResponse h m (GenOutcome.success r)).turns
        = applyBound (h ++ [⟨Role.user, m⟩, ⟨Role.model, r⟩]) 20
    ∧ (Telegram.generateAIResponse h m (GenOutcome.success r)).turns
        <:+ h ++ [⟨Role.user, m⟩, ⟨Role.model, r⟩]
    ∧ ((Telegram.generateAIResponse h m (GenOutcome.success r)).turns).length
        = min (h.length + 2) 20
    ∧ (Part000.generateAIResponse h m (GenOutcome.success r)).reply = r
    ∧ (Part000.generateAIResponse h m (GenOutcome.success r)).turns
        = applyBound (h ++ [⟨Role.user, m⟩, ⟨Role.model, r⟩]) 20
    ∧ (Part001.generateAIResponse h m (GenOutcome.success r)).turns
        = applyBound (h ++ [⟨Role.user, m⟩, ⟨Role.model, r⟩]) 10 :=
  ⟨rfl, rfl, applyBound_suffix _ _, pair_turns_len 20 h m r, rfl, rfl, rfl⟩

/-- C8: the trim returns the suffix of at most maxLen most recent turns in
their original order, is the identity when the history is already within
the bound, and is idempotent. -/
theorem c8_applyBound_window (turns : List Turn) (maxLen k : Nat) :
    applyBound turns maxLen <:+ turns
    ∧ (applyBound turns maxLen).length = min turns.length maxLen
    ∧ applyBound turns (turns.length + k) = turns
    ∧ applyBound (applyBound turns maxLen) maxLen = applyBound turns maxLen :=
  ⟨applyBound_suffix turns maxLen, applyBound_length turns maxLen,
    applyBound_of_le turns (turns.length + k) (by omega),
    applyBound_of_le (applyBound turns maxLen) maxLen
      (by rw [applyBound_length]; omega)⟩

/-- C5 counterexample: the claim states that the upstream call is made in
continuation mode exactly when the stored sequence is non-empty and that
the current message is never included in the supplied history, citing the
WhatsApp variant of src/app.js among its sources; that variant calls
startChat even with an empty store, and pushes the current message into the
history it supplies before the call. -/
theorem c5_counterexample :
    (WhatsApp.generateAIResponse [] "Hello" (GenOutcome.success "Hi")).request.mode
        = GenMode.continuation
    ∧ (WhatsApp.generateAIResponse [] "Hello" (GenOutcome.success "Hi")).request.mode
        ≠ GenMode.singleShot
    ∧ (WhatsApp.generateAIResponse [] "Hello" (GenOutcome.success "Hi")).request.history
        = [⟨Role.user, "Hello"⟩] :=
  ⟨rfl, by decide, rfl⟩

/-- C5 amended: in the three Telegram-shaped variants the upstream call is
in continuation mode exactly when the stored sequence is non-empty at fetch
time, with exactly the previously stored turns as history and the composed
payload (the raw message where no composer exists) as the single newest
input; the WhatsApp variant of src/app.js instead always calls in
continuation mode with the current message already pushed into the supplied
history. -/
theorem c5_continuation_iff_nonempty (h : List Turn) (m : String) (o : GenOutcome) :
    ((Telegram.generateAIResponse h m o).request.mode = GenMode.continuation ↔ h ≠ [])
    ∧ (Telegram.generateAIResponse h m o).request
        = (if h.length > 0 then
            { mode := GenMode.continuation, history := h,
              prompt := Telegram.friendlyPrompt m }
          else
            { mode := GenMode.singleShot, history := [],
              prompt := Telegram.friendlyPrompt m })
    ∧ (Part000.generateAIResponse h m o).request
        = (if h.length > 0 then
            { mode := GenMode.continuation, history := h, prompt := m }
          else { mode := GenMode.singleShot, history := [], prompt := m })
    ∧ (Part001.generateAIResponse h m o).request
        = (if h.length > 0 then
            { mode := GenMode.continuation, history := h, prompt := m }
          else { mode := GenMode.singleShot, history := [], prompt := m })
    ∧ (WhatsApp.generateAIResponse h m o).request.history
        = applyBound (h ++ [⟨Role.user, m⟩]) 10
    ∧ (WhatsApp.generateAIResponse h m o).request.mode = GenMode.continuation := by
  cases o <;> refine ⟨?_, rfl, rfl, rfl, rfl, rfl⟩ <;> cases h <;>
    simp [Telegram.generateAIResponse, Telegram.request]

/-- C6 counterexample: the claim states that the composition is applied to
every outbound request, citing the part_000 variant among its sources;
part_000 sends the raw message upstream, so the outbound prompt of its
single-shot call for the message Hello is the bare string Hello, which does
not open with the fixed style instruction. -/
theorem c6_counterexample :
    (Part000.generateAIResponse [] "Hello" (GenOutcome.success "Hi")).request.prompt
        = "Hello"
    ∧ (Part000.generateAIResponse [] "Hello" (GenOutcome.success "Hi")).request.prompt
        ≠ Telegram.styleInstruction ++ "Hello"
    ∧ textStarts Telegram.styleInstruction
        ((Part000.generateAIResponse [] "Hello" (GenOutcome.success "Hi")).request.prompt)
        = false :=
  ⟨rfl, by decide, by decide⟩

/-- C6 amended: in the Telegram variant of src/app.js every outbound
request, in both single-shot and continuation mode, carries the composed
prompt, which is exactly the fixed style instruction followed by the
original raw message verbatim (so it opens with the fixed instruction and
closes with the raw message); the other variants (part_000, part_001 and
the WhatsApp variant) send the raw message upstream without composition. -/
theorem c6_prompt_composition (h : List Turn) (m : String) (o : GenOutcome) :
    (Telegram.generateAIResponse h m o).request.prompt = Telegram.styleInstruction ++ m
    ∧ (∃ rest, (Telegram.generateAIResponse h m o).request.prompt
        = Telegram.styleInstruction ++ rest)
    ∧ (∃ pre, (Telegram.generateAIResponse h m o).request.prompt = pre ++ m)
    ∧ (Part000.generateAIResponse h m o).request.prompt = m
    ∧ (Part001.generateAIResponse h m o).request.prompt = m
    ∧ (WhatsApp.generateAIResponse h m o).request.prompt = m := by
  have hT : (Telegram.request h m).prompt = Telegram.styleInstruction ++ m := by
    unfold Telegram.request
    split <;> rfl
  have h0 : (Part000.request h m).prompt = m := by
    unfold Part000.request
    split <;> rfl
  have h1 : (Part001.request h m).prompt = m := by
    unfold Part001.request
    split <;> rfl
  cases o with
  | success r =>
    exact ⟨hT, ⟨m, hT⟩, ⟨Telegram.styleInstruction, hT⟩, h0, h1, rfl⟩
  | failure =>
    exact ⟨hT, ⟨m, hT⟩, ⟨Telegram.styleInstruction, hT⟩, h0, h1, rfl⟩

/-- C7: deleting a user entry leaves that user with no stored conversation
(reads as the empty sequence), deleting again changes nothing, the
conditional reset of part_001 has the same store effect as the plain
delete, and the exchange right after a reset is issued in single-shot
mode. -/
theorem c7_reset_empties_store (st : AppState) (u m : String) (o : GenOutcome) :
    AppState.clear st u u = none
    ∧ AppState.get (AppState.clear st u) u = []
    ∧ AppState.clear (AppState.clear st u) u = AppState.clear st u
    ∧ Part001.resetCmd st u = AppState.clear st u
    ∧ (Telegram.generateAIResponse (AppState.get (AppState.clear st u) u) m o).request.mode
        = GenMode.singleShot := by
  have hget : AppState.get (AppState.clear st u) u = [] := by
    simp [AppState.get, AppState.clear]
  refine ⟨by simp [AppState.clear], hget, ?_, ?_, ?_⟩
  · funext v
    by_cases hv : v = u <;> simp [AppState.clear, hv]
  · funext v
    unfold Part001.resetCmd
    cases hst : st u with
    | some t => rfl
    | none =>
      by_cases hv : v = u
      · subst hv
        simp [AppState.clear, hst]
      · simp [AppState.clear, hv]
  · rw [hget]
    cases o <;> rfl

/-- C9: for an inbound message whose text opens with a slash,
generateAIResponse is never invoked, and the conversations object is
unchanged unless the text matches the reset pattern, in which case exactly
that user's entry is deleted; in particular the start and help commands
leave every stored conversation as it was. -/
theorem c9_commands_touch_nothing (st : AppState) (u text : String)
    (o : GenOutcome) (hc : textStarts "/" text = true) :
    (handleUpdate st u text o).genCalled = false
    ∧ (handleUpdate st u text o).state
        = (if occursIn "/reset".data text.data then AppState.clear st u else st) := by
  unfold handleUpdate
  rw [hc]
  exact ⟨rfl, rfl⟩

/-- Witness for C9 at the start command: /start opens with a slash, does
not match the reset pattern, and leaves the store untouched with no
generator call. -/
theorem c9_commands_touch_nothing_witness :
    textStarts "/" "/start" = true
    ∧ ((handleUpdate emptyState "7" "/start" GenOutcome.failure).genCalled = false
      ∧ (handleUpdate emptyState "7" "/start" GenOutcome.failure).state
          = (if occursIn "/reset".data "/start".data then AppState.clear emptyState "7"
             else emptyState)) :=
  ⟨by decide,
    c9_commands_touch_nothing emptyState "7" "/start" GenOutcome.failure (by decide)⟩

/-- C10: in the Telegram variants, the stored history reachable by any
sequence of exchanges and resets has even length and strictly alternates
roles starting from a user turn: position i holds a user turn for even i
and a model turn for odd i, because turns are pushed only in adjacent
user and model pairs and the trim drops the oldest pair whole. -/
theorem c10_alternating_pairs (evs : List Event) (i : Nat) :
    (runWith Telegram.generateAIResponse evs).length % 2 = 0
    ∧ ((runWith Telegram.generateAIResponse evs)[i]?.all fun t =>
        decide (t.role = if i % 2 = 0 then Role.user else Role.model)) = true
    ∧ wellPaired (runWith Telegram.generateAIResponse evs) = true
    ∧ (runWith Part000.generateAIResponse evs).length % 2 = 0
    ∧ ((runWith Part000.generateAIResponse evs)[i]?.all fun t =>
        decide (t.role = if i % 2 = 0 then Role.user else Role.model)) = true
    ∧ wellPaired (runWith Part000.generateAIResponse evs) = true
    ∧ wellPaired (runWith Part001.generateAIResponse evs) = true := by
  have hT := pairs_invariant 20 rfl Telegram.generateAIResponse
    (fun _ _ _ => rfl) (fun _ _ => rfl) evs
  have h0 := pairs_invariant 20 rfl Part000.generateAIResponse
    (fun _ _ _ => rfl) (fun _ _ => rfl) evs
  have h1 := pairs_invariant 10 rfl Part001.generateAIResponse
    (fun _ _ _ => rfl) (fun _ _ => rfl) evs
  exact ⟨wellPaired_even _ hT.1, wellPaired_idx _ hT.1 i, hT.1,
    wellPaired_even _ h0.1, wellPaired_idx _ h0.1 i, h0.1, h1.1⟩
